import Mathlib

/-
Verification of the mint-statistics aggregator of the nounsdomain
repository (src/src/components/useMintStats.tsx).

The hook `useMintStats` keeps an `AggregateSnapshot`
`{totalMinted, recentMints, isLoading, error}` for a configured parent
name, seeds it from a localStorage cache entry when one is fresh
(age < 1 hour), and refreshes it every 30 seconds through
`fetchMintStats`:

  * classification "L1": a graph query (subdomain count + page of
    child names); if the count is positive but the name page empty, one
    corrective nested query; if anything inside that try-block throws,
    a registry-client fallback (`ENS_CLIENT.getSubnames`), whose own
    failure is caught and swallowed;
  * otherwise ("L2"): one indexer REST query; its failure propagates to
    the outer catch, which keeps the previous data fields and sets the
    error message.

After the classification branch, a successful cycle writes the cache
exactly when the computed `totalMinted` is positive, then replaces the
snapshot wholesale with `{totalMinted, recentMints, false, null}`.

The JavaScript effect that drives the 30-second interval captures the
`stats` value of the render in which the effect ran (its dependency
array is `[listingChainId, listedName, listingType]`, which does not
include `stats`), so the "only show loading if count is 0" check at the
top of every refresh reads that captured snapshot, not the current one;
the `setStats` updater functions, by contrast, receive the current
state.  The embedding keeps the two apart as `statsAtEffect` (the
captured value, constant across ticks of one mounted session) and
`prev` (the live snapshot at the start of the tick).

Network responses are modelled after JSON parsing: absent/null fields
are `Option.none`, a thrown request (timeout, network failure) is
`Except.error ()`.  JavaScript truthiness of a name string (the
`filter((sub) => sub.name)` step) drops both missing names and the
empty string.
-/

/-- `MintStats` record of useMintStats.tsx (the AggregateSnapshot). -/
structure MintStats where
  totalMinted : Nat
  recentMints : List String
  isLoading : Bool
  error : Option String
deriving Repr, DecidableEq

/-- Shape persisted under `mintStats-<listedName>` in localStorage. -/
structure CacheEntry where
  totalMinted : Nat
  recentMints : List String
  timestamp : Nat
deriving Repr, DecidableEq

/-- `listingType` configuration value; the code tests `=== "L1"` and
treats everything else as the L2 branch. -/
inductive ListingType where
  | L1 : ListingType
  | L2 : ListingType
deriving Repr, DecidableEq

/-- Parsed body of the main graph query: `data?.domain?.subdomainCount`
(absent when `domain` is null or the field missing) and `data?.domains`
(absent when not an array), each domain item carrying an optional
`name`. -/
structure GraphData where
  subdomainCount : Option Nat
  domains : Option (List (Option String))
deriving Repr, DecidableEq

/-- Parsed body of the indexer response `{items, totalItems}`; either
field may be absent (`data.totalItems || 0`, `data.items?.…`). -/
structure IndexerData where
  items : Option (List String)
  totalItems : Option Nat
deriving Repr, DecidableEq

/-- Outcomes the network offers to one refresh cycle: the main graph
query, the corrective nested query, the ENS_CLIENT registry fallback,
and the indexer request.  `Except.error ()` is a throw (timeout,
network failure); the nested query's payload is `none` when
`data?.data?.domain?.subdomains` is not an array. -/
structure FetchEnv where
  graph : Except Unit GraphData
  nested : Except Unit (Option (List String))
  registry : Except Unit (List String)
  indexer : Except Unit IndexerData
deriving Repr

/-- Everything one call of `fetchMintStats` produces: the final
snapshot stored by the closing `setStats`, the cache afterwards, the
intermediate loading snapshot when the top-of-function
`setStats(prev => ({...prev, isLoading: true, error: null}))` fired,
and how often each network request was issued. -/
structure FetchResult where
  snapshot : MintStats
  cache : Option CacheEntry
  intermediate : Option MintStats
  graphCalls : Nat
  nestedCalls : Nat
  registryCalls : Nat
  indexerCalls : Nat
deriving Repr, DecidableEq

/-- `const limit = 100`. -/
def limit : Nat := 100

/-- Cache freshness window: 3600000 ms. -/
def TTL : Nat := 3600000

/-- Message set by the outer catch handler. -/
def errorMessage : String := "Failed to fetch mint statistics"

/-- `domains.filter((sub) => sub.name).map((sub) => sub.name)`:
JavaScript truthiness keeps only present, non-empty names. -/
def truthyNames (l : List (Option String)) : List String :=
  l.filterMap (fun o =>
    match o with
    | some s => if s = "" then none else some s
    | none => none)

/-- Body of the catch-side fallback: `ENS_CLIENT.getSubnames` under its
own try/catch.  `tr` holds the values of the mutable `totalMinted` /
`recentMints` at the moment the catch was entered; they survive both an
empty result (`subnames.length > 0` fails) and a second throw. -/
def applyRegistry (tr : Nat × List String) (reg : Except Unit (List String)) :
    Nat × List String :=
  match reg with
  | Except.ok l => if 0 < l.length then (l.length, l.take limit) else tr
  | Except.error _ => tr

/-- The whole `listingType === "L1"` block: graph query, corrective
nested query, registry fallback.  Returns the final
`(totalMinted, recentMints)` together with the number of nested and of
registry calls; the block itself never throws outward (every failure
is caught inside it). -/
def runL1 (env : FetchEnv) : Nat × List String × Nat × Nat :=
  match env.graph with
  | Except.ok gd =>
      let t := gd.subdomainCount.getD 0
      let r := (gd.domains.map truthyNames).getD []
      if 0 < t ∧ r = [] then
        match env.nested with
        | Except.ok (some l) => (t, l, 1, 0)
        | Except.ok none => (t, r, 1, 0)
        | Except.error _ =>
            -- the nested await sits inside the same try: its throw
            -- reaches the catch with totalMinted = t, recentMints = []
            let p := applyRegistry (t, []) env.registry
            (p.1, p.2, 1, 1)
      else (t, r, 0, 0)
  | Except.error _ =>
      let p := applyRegistry (0, []) env.registry
      (p.1, p.2, 0, 1)

/-- The L2 branch: one indexer request; a throw propagates to the outer
catch.  `totalMinted = data.totalItems || 0`,
`recentMints = data.items?.slice(0, limit).map(...) || []`. -/
def runL2 (env : FetchEnv) : Except Unit (Nat × List String) :=
  match env.indexer with
  | Except.ok d => Except.ok (d.totalItems.getD 0, (d.items.getD []).take limit)
  | Except.error _ => Except.error ()

/-- One invocation of the async `fetchMintStats` closure.
`statsAtEffect` is the `stats` value captured when the effect ran (used
by the `if (stats.totalMinted === 0)` loading check); `prev` is the
live snapshot when this tick starts (what the `setStats` updaters
see); `cache` the stored entry for the parent name; `now` the value
`Date.now()` takes at the cache write. -/
def fetchMintStats (listingType : ListingType) (listingChainId : Nat)
    (listedName : String) (statsAtEffect : MintStats) (prev : MintStats)
    (cache : Option CacheEntry) (env : FetchEnv) (now : Nat) : FetchResult :=
  if listingChainId = 0 ∨ listedName = "" then
    -- `if (!listingChainId || !listedName) return;`
    ⟨prev, cache, none, 0, 0, 0, 0⟩
  else
    let intermediate : Option MintStats :=
      if statsAtEffect.totalMinted = 0 then
        some { prev with isLoading := true, error := none }
      else none
    match listingType with
    | ListingType.L1 =>
        let p := runL1 env
        ⟨⟨p.1, p.2.1, false, none⟩,
         if 0 < p.1 then some ⟨p.1, p.2.1, now⟩ else cache,
         intermediate, 1, p.2.2.1, p.2.2.2, 0⟩
    | ListingType.L2 =>
        match runL2 env with
        | Except.ok p =>
            ⟨⟨p.1, p.2, false, none⟩,
             if 0 < p.1 then some ⟨p.1, p.2, now⟩ else cache,
             intermediate, 0, 0, 0, 1⟩
        | Except.error _ =>
            ⟨{ prev with isLoading := false, error := some errorMessage },
             cache, intermediate, 0, 0, 0, 1⟩

/-- `isFresh(entry)`: the `Date.now() - parsed.timestamp < 3600000`
check guarding the cache read. -/
def isFresh (e : CacheEntry) (now : Nat) : Bool :=
  now - e.timestamp < TTL

/-- The `useState` initializer: seed from the cache entry when the
name is configured and the entry fresh, else start with the empty
loading snapshot.  A malformed or absent stored value is `none`. -/
def initStats (listedName : String) (cache : Option CacheEntry) (now : Nat) :
    MintStats :=
  if listedName = "" then ⟨0, [], true, none⟩
  else
    match cache with
    | some e =>
        if isFresh e now then ⟨e.totalMinted, e.recentMints, false, none⟩
        else ⟨0, [], true, none⟩
    | none => ⟨0, [], true, none⟩

/-! ### Helper lemmas -/

/-- On a list of present, non-empty names the truthiness filter is the
identity, so the graph result is adopted verbatim. -/
theorem truthyNames_map_some (ds : List String) (h : "" ∉ ds) :
    truthyNames (ds.map some) = ds := by
  induction ds with
  | nil => rfl
  | cons a tl ih =>
      have ha : a ≠ "" := fun hc => h (by simp [hc])
      have htl : "" ∉ tl := fun hc => h (List.mem_cons_of_mem _ hc)
      have ih2 := ih htl
      simp only [truthyNames, List.filterMap_map] at ih2 ⊢
      simp [List.filterMap_cons, ha, ih2]

/-- The truthiness filter never lengthens the list. -/
theorem truthyNames_length_le (l : List (Option String)) :
    (truthyNames l).length ≤ l.length :=
  List.length_filterMap_le _ l

/-- Whatever the registry fallback does to a catch state with an empty
name list, the resulting list stays within the page limit. -/
theorem applyRegistry_length_le (t : Nat) (reg : Except Unit (List String)) :
    (applyRegistry (t, []) reg).2.length ≤ limit := by
  cases reg with
  | ok l =>
      by_cases hl : 0 < l.length
      · simp [applyRegistry, hl, List.length_take]
      · simp [applyRegistry, hl]
  | error e => simp [applyRegistry]

/-! ### Claim theorems -/

/-- Claim C1, counterexample: with classification L1, a refresh in which
the graph query and the registry fallback both throw does NOT surface an
error nor retain the previous data — the previous snapshot held
`totalMinted = 10`, yet the cycle replaces it with the empty zero-count
snapshot whose `error` field is `none`.  (The `catch (fallbackErr)`
block only logs; execution then falls through to the unconditional
closing `setStats` with `totalMinted = 0`, `recentMints = []`.) -/
theorem mintStats_C1_counterexample :
    (fetchMintStats ListingType.L1 1 "alice.eth"
      ⟨10, ["a.alice.eth"], false, none⟩ ⟨10, ["a.alice.eth"], false, none⟩
      (some ⟨10, ["a.alice.eth"], 0⟩)
      ⟨Except.error (), Except.ok none, Except.error (), Except.error ()⟩
      50).snapshot = ⟨0, [], false, none⟩ := rfl

/-- Claim C1, amended: for classification L1, when the graph query and
the registry fallback both fail in one refresh cycle, the failure is
swallowed — the snapshot is replaced by
`{totalMinted := 0, recentMints := [], isLoading := false, error := none}`
(no error surfaced, prior live data not retained), and only the cache
keeps the earlier data (no cache write occurs). -/
theorem mintStats_C1_amended (chainId : Nat) (name : String)
    (sae prev : MintStats) (cache : Option CacheEntry) (env : FetchEnv)
    (now : Nat) (hc : chainId ≠ 0) (hn : name ≠ "")
    (hg : env.graph = Except.error ()) (hr : env.registry = Except.error ()) :
    (fetchMintStats ListingType.L1 chainId name sae prev cache env now).snapshot
      = ⟨0, [], false, none⟩ ∧
    (fetchMintStats ListingType.L1 chainId name sae prev cache env now).cache
      = cache := by
  simp [fetchMintStats, hc, hn, runL1, hg, applyRegistry, hr]

/-- Witness for `mintStats_C1_amended` at a concrete input. -/
theorem mintStats_C1_amended_witness :
    (fetchMintStats ListingType.L1 7 "carol.eth" ⟨4, ["m.carol.eth"], false, none⟩
      ⟨4, ["m.carol.eth"], false, none⟩ (some ⟨4, ["m.carol.eth"], 11⟩)
      ⟨Except.error (), Except.ok none, Except.error (), Except.error ()⟩
      99).snapshot = ⟨0, [], false, none⟩ ∧
    (fetchMintStats ListingType.L1 7 "carol.eth" ⟨4, ["m.carol.eth"], false, none⟩
      ⟨4, ["m.carol.eth"], false, none⟩ (some ⟨4, ["m.carol.eth"], 11⟩)
      ⟨Except.error (), Except.ok none, Except.error (), Except.error ()⟩
      99).cache = some ⟨4, ["m.carol.eth"], 11⟩ :=
  mintStats_C1_amended 7 "carol.eth" ⟨4, ["m.carol.eth"], false, none⟩
    ⟨4, ["m.carol.eth"], false, none⟩ (some ⟨4, ["m.carol.eth"], 11⟩)
    ⟨Except.error (), Except.ok none, Except.error (), Except.error ()⟩
    99 (by decide) (by decide) rfl rfl

/-- Claim C2 (code bug): the loading check `if (stats.totalMinted === 0)`
reads the `stats` value captured by the effect closure (the effect's
dependency array omits `stats`), not the current snapshot.  Concrete
run: mount with no cache (captured snapshot has `totalMinted = 0`); the
first refresh succeeds with `totalMinted = 3`, which becomes visible
with `isLoading = false`; the second 30-second tick nevertheless emits
an intermediate snapshot with `isLoading = true` while the visible
`totalMinted` is `3` — contradicting the policy that loading is
surfaced only while the currently known `totalMinted` is 0. -/
theorem mintStats_C2_bug :
    (fetchMintStats ListingType.L2 1 "bob.eth" (initStats "bob.eth" none 0)
      (initStats "bob.eth" none 0) none
      ⟨Except.error (), Except.ok none, Except.error (),
        Except.ok ⟨some ["x.bob.eth"], some 3⟩⟩ 0).snapshot
      = ⟨3, ["x.bob.eth"], false, none⟩ ∧
    (fetchMintStats ListingType.L2 1 "bob.eth" (initStats "bob.eth" none 0)
      ⟨3, ["x.bob.eth"], false, none⟩
      (some ⟨3, ["x.bob.eth"], 0⟩)
      ⟨Except.error (), Except.ok none, Except.error (),
        Except.ok ⟨some ["x.bob.eth"], some 3⟩⟩ 30000).intermediate
      = some ⟨3, ["x.bob.eth"], true, none⟩ :=
  ⟨rfl, rfl⟩

/-- Claim C3: for classification L1, a successful graph query with a
positive count and a non-empty (well-formed) name list is adopted
verbatim — snapshot `{N, names, isLoading := false, error := none}` —
and the cache entry is written; neither the corrective nested query nor
the registry fallback runs. -/
theorem mintStats_C3 (chainId : Nat) (name : String) (sae prev : MintStats)
    (cache : Option CacheEntry) (env : FetchEnv) (now N : Nat)
    (ds : List String) (hc : chainId ≠ 0) (hn : name ≠ "")
    (hg : env.graph = Except.ok ⟨some N, some (ds.map some)⟩)
    (hN : 0 < N) (hds : ds ≠ []) (hemp : "" ∉ ds) :
    (fetchMintStats ListingType.L1 chainId name sae prev cache env now).snapshot
      = ⟨N, ds, false, none⟩ ∧
    (fetchMintStats ListingType.L1 chainId name sae prev cache env now).cache
      = some ⟨N, ds, now⟩ ∧
    (fetchMintStats ListingType.L1 chainId name sae prev cache env now).nestedCalls
      = 0 ∧
    (fetchMintStats ListingType.L1 chainId name sae prev cache env now).registryCalls
      = 0 := by
  have hr : runL1 env = (N, ds, 0, 0) := by
    simp [runL1, hg, truthyNames_map_some ds hemp, hds]
  simp [fetchMintStats, hc, hn, hr, hN]

/-- Witness for `mintStats_C3`: the end-to-end scenario of the spec —
parent "alice.eth", graph response `{subdomainCount: 3,
domains: [x.alice.eth, y.alice.eth]}` becomes the snapshot
`{3, [x.alice.eth, y.alice.eth], false, none}` and is cached. -/
theorem mintStats_C3_witness :
    (fetchMintStats ListingType.L1 1 "alice.eth" ⟨0, [], true, none⟩
      ⟨0, [], true, none⟩ none
      ⟨Except.ok ⟨some 3, some [some "x.alice.eth", some "y.alice.eth"]⟩,
        Except.error (), Except.error (), Except.error ()⟩ 7).snapshot
      = ⟨3, ["x.alice.eth", "y.alice.eth"], false, none⟩ ∧
    (fetchMintStats ListingType.L1 1 "alice.eth" ⟨0, [], true, none⟩
      ⟨0, [], true, none⟩ none
      ⟨Except.ok ⟨some 3, some [some "x.alice.eth", some "y.alice.eth"]⟩,
        Except.error (), Except.error (), Except.error ()⟩ 7).cache
      = some ⟨3, ["x.alice.eth", "y.alice.eth"], 7⟩ := by
  have h := mintStats_C3 1 "alice.eth" ⟨0, [], true, none⟩ ⟨0, [], true, none⟩
    none
    ⟨Except.ok ⟨some 3, some [some "x.alice.eth", some "y.alice.eth"]⟩,
      Except.error (), Except.error (), Except.error ()⟩ 7 3
    ["x.alice.eth", "y.alice.eth"] (by decide) (by decide) rfl (by decide)
    (by decide) (by decide)
  exact ⟨h.1, h.2.1⟩

/-- Claim C4: for classification L2 only the indexer request is issued
(no graph, nested or registry call), and when it throws the outer catch
leaves the previous `totalMinted` and `recentMints` untouched, clears
`isLoading`, sets the error message, and writes no cache entry. -/
theorem mintStats_C4 (chainId : Nat) (name : String) (sae prev : MintStats)
    (cache : Option CacheEntry) (env : FetchEnv) (now : Nat)
    (hc : chainId ≠ 0) (hn : name ≠ "")
    (hi : env.indexer = Except.error ()) :
    (fetchMintStats ListingType.L2 chainId name sae prev cache env now).snapshot.totalMinted
      = prev.totalMinted ∧
    (fetchMintStats ListingType.L2 chainId name sae prev cache env now).snapshot.recentMints
      = prev.recentMints ∧
    (fetchMintStats ListingType.L2 chainId name sae prev cache env now).snapshot.isLoading
      = false ∧
    (fetchMintStats ListingType.L2 chainId name sae prev cache env now).snapshot.error
      = some errorMessage ∧
    (fetchMintStats ListingType.L2 chainId name sae prev cache env now).cache
      = cache ∧
    (fetchMintStats ListingType.L2 chainId name sae prev cache env now).indexerCalls
      = 1 ∧
    (fetchMintStats ListingType.L2 chainId name sae prev cache env now).graphCalls
      = 0 ∧
    (fetchMintStats ListingType.L2 chainId name sae prev cache env now).registryCalls
      = 0 := by
  simp [fetchMintStats, hc, hn, runL2, hi]

/-- Witness for `mintStats_C4`: the spec's "bob.eth, indexer
unreachable" scenario — the previously held `{10, ...}` survives with
the error message set. -/
theorem mintStats_C4_witness :
    (fetchMintStats ListingType.L2 1 "bob.eth" ⟨10, ["v.bob.eth"], false, none⟩
      ⟨10, ["v.bob.eth"], false, none⟩ (some ⟨10, ["v.bob.eth"], 2⟩)
      ⟨Except.error (), Except.ok none, Except.error (), Except.error ()⟩
      44).snapshot.totalMinted = 10 ∧
    (fetchMintStats ListingType.L2 1 "bob.eth" ⟨10, ["v.bob.eth"], false, none⟩
      ⟨10, ["v.bob.eth"], false, none⟩ (some ⟨10, ["v.bob.eth"], 2⟩)
      ⟨Except.error (), Except.ok none, Except.error (), Except.error ()⟩
      44).snapshot.error = some errorMessage ∧
    (fetchMintStats ListingType.L2 1 "bob.eth" ⟨10, ["v.bob.eth"], false, none⟩
      ⟨10, ["v.bob.eth"], false, none⟩ (some ⟨10, ["v.bob.eth"], 2⟩)
      ⟨Except.error (), Except.ok none, Except.error (), Except.error ()⟩
      44).cache = some ⟨10, ["v.bob.eth"], 2⟩ := by
  have h := mintStats_C4 1 "bob.eth" ⟨10, ["v.bob.eth"], false, none⟩
    ⟨10, ["v.bob.eth"], false, none⟩ (some ⟨10, ["v.bob.eth"], 2⟩)
    ⟨Except.error (), Except.ok none, Except.error (), Except.error ()⟩
    44 (by decide) (by decide) rfl
  exact ⟨h.1, h.2.2.2.1, h.2.2.2.2.1⟩

/-- Claim C5: within one refresh cycle the cache is written exactly when
the fetch succeeds (`error = none`) with a positive count — storing the
snapshot's count and list under the current time — while a zero result
or a failed cycle leaves the stored entry untouched. -/
theorem mintStats_C5 (lt : ListingType) (chainId : Nat) (name : String)
    (sae prev : MintStats) (cache : Option CacheEntry) (env : FetchEnv)
    (now : Nat) (hc : chainId ≠ 0) (hn : name ≠ "") :
    ((fetchMintStats lt chainId name sae prev cache env now).snapshot.error = none ∧
      0 < (fetchMintStats lt chainId name sae prev cache env now).snapshot.totalMinted →
      (fetchMintStats lt chainId name sae prev cache env now).cache =
        some ⟨(fetchMintStats lt chainId name sae prev cache env now).snapshot.totalMinted,
              (fetchMintStats lt chainId name sae prev cache env now).snapshot.recentMints,
              now⟩) ∧
    ((fetchMintStats lt chainId name sae prev cache env now).snapshot.totalMinted = 0 ∨
      (fetchMintStats lt chainId name sae prev cache env now).snapshot.error ≠ none →
      (fetchMintStats lt chainId name sae prev cache env now).cache = cache) := by
  cases lt with
  | L1 =>
      rcases h : runL1 env with ⟨t, r, nc, rc⟩
      by_cases ht : 0 < t
      · have hne : t ≠ 0 := Nat.pos_iff_ne_zero.mp ht
        simp [fetchMintStats, hc, hn, h, ht, hne]
      · have ht0 : t = 0 := Nat.eq_zero_of_not_pos ht
        simp [fetchMintStats, hc, hn, h, ht0]
  | L2 =>
      cases hi : env.indexer with
      | ok d =>
          by_cases ht : 0 < d.totalItems.getD 0
          · have hne : d.totalItems.getD 0 ≠ 0 := Nat.pos_iff_ne_zero.mp ht
            simp [fetchMintStats, hc, hn, runL2, hi, ht, hne]
          · have ht0 : d.totalItems.getD 0 = 0 := Nat.eq_zero_of_not_pos ht
            simp [fetchMintStats, hc, hn, runL2, hi, ht0]
      | error e =>
          simp [fetchMintStats, hc, hn, runL2, hi]

/-- Witness for `mintStats_C5`: an L1 cycle succeeding with count 2
writes exactly that entry at the current time. -/
theorem mintStats_C5_witness :
    (fetchMintStats ListingType.L1 1 "dave.eth" ⟨0, [], true, none⟩
      ⟨0, [], true, none⟩ none
      ⟨Except.ok ⟨some 2, some [some "p.dave.eth"]⟩, Except.error (),
        Except.error (), Except.error ()⟩ 13).cache =
      some ⟨(fetchMintStats ListingType.L1 1 "dave.eth" ⟨0, [], true, none⟩
        ⟨0, [], true, none⟩ none
        ⟨Except.ok ⟨some 2, some [some "p.dave.eth"]⟩, Except.error (),
          Except.error (), Except.error ()⟩ 13).snapshot.totalMinted,
        (fetchMintStats ListingType.L1 1 "dave.eth" ⟨0, [], true, none⟩
        ⟨0, [], true, none⟩ none
        ⟨Except.ok ⟨some 2, some [some "p.dave.eth"]⟩, Except.error (),
          Except.error (), Except.error ()⟩ 13).snapshot.recentMints, 13⟩ :=
  (mintStats_C5 ListingType.L1 1 "dave.eth" ⟨0, [], true, none⟩
    ⟨0, [], true, none⟩ none
    ⟨Except.ok ⟨some 2, some [some "p.dave.eth"]⟩, Except.error (),
      Except.error (), Except.error ()⟩ 13 (by decide) (by decide)).1
    ⟨rfl, by decide⟩

/-- Claim C6: for classification L1 a failed graph query triggers the
registry fallback exactly once (and never the indexer); when the
fallback returns a non-empty page its result becomes the snapshot with
`totalMinted` derived as the size of the returned page. -/
theorem mintStats_C6 (chainId : Nat) (name : String) (sae prev : MintStats)
    (cache : Option CacheEntry) (env : FetchEnv) (now : Nat)
    (hc : chainId ≠ 0) (hn : name ≠ "")
    (hg : env.graph = Except.error ()) :
    (fetchMintStats ListingType.L1 chainId name sae prev cache env now).registryCalls
      = 1 ∧
    (fetchMintStats ListingType.L1 chainId name sae prev cache env now).indexerCalls
      = 0 ∧
    (∀ l, env.registry = Except.ok l → l ≠ [] →
      (fetchMintStats ListingType.L1 chainId name sae prev cache env now).snapshot
        = ⟨l.length, l.take limit, false, none⟩) := by
  refine ⟨by simp [fetchMintStats, hc, hn, runL1, hg],
          by simp [fetchMintStats, hc, hn, runL1, hg], ?_⟩
  intro l hl hne
  have hlen : 0 < l.length := List.length_pos.mpr hne
  simp [fetchMintStats, hc, hn, runL1, hg, applyRegistry, hl, hlen]

/-- Witness for `mintStats_C6`: graph down, registry returns a two-name
page; the snapshot is that page with `totalMinted = 2`. -/
theorem mintStats_C6_witness :
    (fetchMintStats ListingType.L1 1 "erin.eth" ⟨0, [], true, none⟩
      ⟨0, [], true, none⟩ none
      ⟨Except.error (), Except.ok none,
        Except.ok ["p.erin.eth", "q.erin.eth"], Except.error ()⟩ 9).registryCalls
      = 1 ∧
    (fetchMintStats ListingType.L1 1 "erin.eth" ⟨0, [], true, none⟩
      ⟨0, [], true, none⟩ none
      ⟨Except.error (), Except.ok none,
        Except.ok ["p.erin.eth", "q.erin.eth"], Except.error ()⟩ 9).snapshot
      = ⟨2, ["p.erin.eth", "q.erin.eth"], false, none⟩ := by
  have h := mintStats_C6 1 "erin.eth" ⟨0, [], true, none⟩ ⟨0, [], true, none⟩
    none
    ⟨Except.error (), Except.ok none,
      Except.ok ["p.erin.eth", "q.erin.eth"], Except.error ()⟩ 9
    (by decide) (by decide) rfl
  exact ⟨h.1, h.2.2 ["p.erin.eth", "q.erin.eth"] rfl (by decide)⟩

/-- Claim C7: with classification L1 and a successful graph query, the
corrective nested query is issued exactly once when the count is
positive and the parsed name list empty, and not at all otherwise; when
the nested query returns a name array, that array becomes `recentMints`
while the count is kept. -/
theorem mintStats_C7 (chainId : Nat) (name : String) (sae prev : MintStats)
    (cache : Option CacheEntry) (env : FetchEnv) (now : Nat) (gd : GraphData)
    (hc : chainId ≠ 0) (hn : name ≠ "")
    (hg : env.graph = Except.ok gd) :
    (fetchMintStats ListingType.L1 chainId name sae prev cache env now).nestedCalls
      = (if 0 < gd.subdomainCount.getD 0 ∧
            (gd.domains.map truthyNames).getD [] = [] then 1 else 0) ∧
    (∀ l, 0 < gd.subdomainCount.getD 0 →
      (gd.domains.map truthyNames).getD [] = [] →
      env.nested = Except.ok (some l) →
      (fetchMintStats ListingType.L1 chainId name sae prev cache env now).snapshot.recentMints
        = l ∧
      (fetchMintStats ListingType.L1 chainId name sae prev cache env now).snapshot.totalMinted
        = gd.subdomainCount.getD 0) := by
  constructor
  · by_cases hcond : 0 < gd.subdomainCount.getD 0 ∧
        (gd.domains.map truthyNames).getD [] = []
    · cases hne : env.nested with
      | ok o => cases o <;> simp [fetchMintStats, hc, hn, runL1, hg, hcond, hne]
      | error e => simp [fetchMintStats, hc, hn, runL1, hg, hcond, hne]
    · simp [fetchMintStats, hc, hn, runL1, hg, hcond]
  · intro l h1 h2 h3
    simp [fetchMintStats, hc, hn, runL1, hg, h1, h2, h3]

/-- Witness for `mintStats_C7`: graph reports count 5 with an empty
list; exactly one nested query runs and its single name becomes the
final list, the count staying 5. -/
theorem mintStats_C7_witness :
    (fetchMintStats ListingType.L1 1 "alice.eth" ⟨0, [], true, none⟩
      ⟨0, [], true, none⟩ none
      ⟨Except.ok ⟨some 5, some []⟩, Except.ok (some ["n.alice.eth"]),
        Except.error (), Except.error ()⟩ 9).nestedCalls = 1 ∧
    (fetchMintStats ListingType.L1 1 "alice.eth" ⟨0, [], true, none⟩
      ⟨0, [], true, none⟩ none
      ⟨Except.ok ⟨some 5, some []⟩, Except.ok (some ["n.alice.eth"]),
        Except.error (), Except.error ()⟩ 9).snapshot.recentMints
      = ["n.alice.eth"] ∧
    (fetchMintStats ListingType.L1 1 "alice.eth" ⟨0, [], true, none⟩
      ⟨0, [], true, none⟩ none
      ⟨Except.ok ⟨some 5, some []⟩, Except.ok (some ["n.alice.eth"]),
        Except.error (), Except.error ()⟩ 9).snapshot.totalMinted = 5 := by
  have h := mintStats_C7 1 "alice.eth" ⟨0, [], true, none⟩ ⟨0, [], true, none⟩
    none
    ⟨Except.ok ⟨some 5, some []⟩, Except.ok (some ["n.alice.eth"]),
      Except.error (), Except.error ()⟩ 9 ⟨some 5, some []⟩
    (by decide) (by decide) rfl
  have h2 := h.2 ["n.alice.eth"] (by decide) (by decide) rfl
  exact ⟨by simpa using h.1, h2.1, by simpa using h2.2⟩

/-- Claim C8: cache round-trip — an entry saved with timestamp `ts` and
loaded `d` milliseconds later seeds the snapshot with the identical
count and name list and `isLoading = false` while `d < TTL`
(`isFresh(entry) = now - entry.timestamp < 1 hour` with a strict
bound, so age exactly one hour is already stale), and is ignored once
`TTL ≤ d`, leaving the empty loading state. -/
theorem mintStats_C8 (name : String) (t : Nat) (r : List String)
    (ts d : Nat) (hn : name ≠ "") :
    (d < TTL → initStats name (some ⟨t, r, ts⟩) (ts + d)
      = ⟨t, r, false, none⟩) ∧
    (TTL ≤ d → initStats name (some ⟨t, r, ts⟩) (ts + d)
      = ⟨0, [], true, none⟩) := by
  constructor
  · intro h
    simp [initStats, isFresh, hn, Nat.add_sub_cancel_left, h]
  · intro h
    simp [initStats, isFresh, hn, Nat.add_sub_cancel_left, Nat.not_lt.mpr h]

/-- Witness for `mintStats_C8`: the entry `{42, [a.eth]}` saved at time
5 is reproduced identically when loaded at once, and ignored when
loaded exactly `TTL` later. -/
theorem mintStats_C8_witness :
    initStats "alice.eth" (some ⟨42, ["a.eth"], 5⟩) (5 + 0)
      = ⟨42, ["a.eth"], false, none⟩ ∧
    initStats "alice.eth" (some ⟨42, ["a.eth"], 5⟩) (5 + TTL)
      = ⟨0, [], true, none⟩ :=
  ⟨(mintStats_C8 "alice.eth" 42 ["a.eth"] 5 0 (by decide)).1 (by decide),
   (mintStats_C8 "alice.eth" 42 ["a.eth"] 5 TTL (by decide)).2 (le_refl TTL)⟩

/-- Claim C9, counterexample: the graph path performs no client-side
clamp on the parsed name list (`domains.filter(...).map(...)` has no
`slice`), so a graph response carrying 101 names — more than the
requested page size — produces a snapshot whose `recentMints` is longer
than the configured limit of 100. -/
theorem mintStats_C9_counterexample :
    limit < (fetchMintStats ListingType.L1 1 "frank.eth" ⟨0, [], true, none⟩
      ⟨0, [], true, none⟩ none
      ⟨Except.ok ⟨some 101, some (List.replicate 101 (some "a.frank.eth"))⟩,
        Except.error (), Except.error (), Except.error ()⟩
      3).snapshot.recentMints.length := by
  decide

/-- Helper: the list computed by the L1 block stays within the limit
when the graph and nested responses honour the requested page size;
the registry branch clamps with `slice(0, limit)` on its own. -/
theorem runL1_length_le (env : FetchEnv)
    (hg : ∀ gd l, env.graph = Except.ok gd → gd.domains = some l →
      l.length ≤ limit)
    (hnest : ∀ l, env.nested = Except.ok (some l) → l.length ≤ limit) :
    (runL1 env).2.1.length ≤ limit := by
  cases hge : env.graph with
  | error e =>
      simpa [runL1, hge] using applyRegistry_length_le 0 env.registry
  | ok gd =>
      have hr : ((gd.domains.map truthyNames).getD []).length ≤ limit := by
        cases hdom : gd.domains with
        | none => simp
        | some dl =>
            simpa using le_trans (truthyNames_length_le dl) (hg gd dl hge hdom)
      by_cases hcond : 0 < gd.subdomainCount.getD 0 ∧
          (gd.domains.map truthyNames).getD [] = []
      · cases hne : env.nested with
        | ok o =>
            cases o with
            | some l => simpa [runL1, hge, hcond, hne] using hnest l hne
            | none => simp [runL1, hge, hcond, hne]
        | error e =>
            simpa [runL1, hge, hcond, hne]
              using applyRegistry_length_le (gd.subdomainCount.getD 0) env.registry
      · simpa [runL1, hge, hcond] using hr

/-- Claim C9, amended: `recentMints` stays within the configured limit
of 100 on the registry-fallback and indexer paths unconditionally (both
apply `slice(0, limit)` / an explicit limit-bounded take), and on the
graph paths whenever the responses honour the requested page size
(`first: 100`); the previous snapshot's list must itself be within the
limit for the failure path and the intermediate snapshot that retain
it. -/
theorem mintStats_C9_amended (lt : ListingType) (chainId : Nat)
    (name : String) (sae prev : MintStats) (cache : Option CacheEntry)
    (env : FetchEnv) (now : Nat)
    (hprev : prev.recentMints.length ≤ limit)
    (hg : ∀ gd l, env.graph = Except.ok gd → gd.domains = some l →
      l.length ≤ limit)
    (hnest : ∀ l, env.nested = Except.ok (some l) → l.length ≤ limit) :
    (fetchMintStats lt chainId name sae prev cache env now).snapshot.recentMints.length
      ≤ limit ∧
    (∀ m, (fetchMintStats lt chainId name sae prev cache env now).intermediate
      = some m → m.recentMints.length ≤ limit) := by
  by_cases hvalid : chainId = 0 ∨ name = ""
  · constructor
    · simpa [fetchMintStats, hvalid] using hprev
    · intro m hm
      simp [fetchMintStats, hvalid] at hm
  · constructor
    · cases lt with
      | L1 => simpa [fetchMintStats, hvalid] using runL1_length_le env hg hnest
      | L2 =>
          cases hi : env.indexer with
          | ok d =>
              simp [fetchMintStats, hvalid, runL2, hi, List.length_take]
          | error e => simpa [fetchMintStats, hvalid, runL2, hi] using hprev
    · intro m hm
      by_cases hz : sae.totalMinted = 0
      · cases lt with
        | L1 =>
            simp [fetchMintStats, hvalid, hz] at hm
            simpa [← hm] using hprev
        | L2 =>
            cases hi : env.indexer with
            | ok d =>
                simp [fetchMintStats, hvalid, hz, runL2, hi] at hm
                simpa [← hm] using hprev
            | error e =>
                simp [fetchMintStats, hvalid, hz, runL2, hi] at hm
                simpa [← hm] using hprev
      · cases lt with
        | L1 => simp [fetchMintStats, hvalid, hz] at hm
        | L2 =>
            cases hi : env.indexer with
            | ok d => simp [fetchMintStats, hvalid, hz, runL2, hi] at hm
            | error e => simp [fetchMintStats, hvalid, hz, runL2, hi] at hm

/-- Witness for `mintStats_C9_amended`: a compliant indexer response of
one item keeps the list within the limit on both the final and the
intermediate snapshot. -/
theorem mintStats_C9_amended_witness :
    (fetchMintStats ListingType.L2 1 "gail.eth" ⟨0, [], true, none⟩
      ⟨0, [], true, none⟩ none
      ⟨Except.error (), Except.ok none, Except.error (),
        Except.ok ⟨some ["h.gail.eth"], some 1⟩⟩ 21).snapshot.recentMints.length
      ≤ limit := by
  exact (mintStats_C9_amended ListingType.L2 1 "gail.eth" ⟨0, [], true, none⟩
    ⟨0, [], true, none⟩ none
    ⟨Except.error (), Except.ok none, Except.error (),
      Except.ok ⟨some ["h.gail.eth"], some 1⟩⟩ 21 (by decide)
    (fun gd l hgd _ => by cases hgd)
    (fun l hl => by cases hl)).1

/-- Claim C10, counterexample: a non-throwing refresh that yields
`totalMinted = 0` does NOT always install `recentMints = []` — an L2
indexer response `{items: [a.bob.eth], totalItems: 0}` completes
without throwing, yields a zero count, yet the replacing snapshot has
the non-empty list `[a.bob.eth]`; the prior non-zero data is still
discarded and only the cache keeps it. -/
theorem mintStats_C10_counterexample :
    (fetchMintStats ListingType.L2 1 "bob.eth" ⟨10, ["old.bob.eth"], false, none⟩
      ⟨10, ["old.bob.eth"], false, none⟩ (some ⟨10, ["old.bob.eth"], 0⟩)
      ⟨Except.error (), Except.ok none, Except.error (),
        Except.ok ⟨some ["a.bob.eth"], some 0⟩⟩ 50).snapshot
      = ⟨0, ["a.bob.eth"], false, none⟩ ∧
    (fetchMintStats ListingType.L2 1 "bob.eth" ⟨10, ["old.bob.eth"], false, none⟩
      ⟨10, ["old.bob.eth"], false, none⟩ (some ⟨10, ["old.bob.eth"], 0⟩)
      ⟨Except.error (), Except.ok none, Except.error (),
        Except.ok ⟨some ["a.bob.eth"], some 0⟩⟩ 50).cache
      = some ⟨10, ["old.bob.eth"], 0⟩ :=
  ⟨rfl, rfl⟩

/-- Claim C10, amended: a refresh that completes without throwing
(`error = none`) with `totalMinted = 0` replaces the live snapshot
wholesale with the zero-count result — computed independently of the
previous snapshot, with `isLoading = false` and `error = none` (its
`recentMints` is the zero-result's own list, empty in particular when
both L1 adapters were exhausted silently) — and leaves the cache
entry, which alone retains earlier non-zero data, unchanged. -/
theorem mintStats_C10_amended (lt : ListingType) (chainId : Nat)
    (name : String) (sae prev prevAlt : MintStats)
    (cache : Option CacheEntry) (env : FetchEnv) (now : Nat)
    (hc : chainId ≠ 0) (hn : name ≠ "")
    (he : (fetchMintStats lt chainId name sae prev cache env now).snapshot.error
      = none)
    (ht : (fetchMintStats lt chainId name sae prev cache env now).snapshot.totalMinted
      = 0) :
    (fetchMintStats lt chainId name sae prev cache env now).snapshot.isLoading
      = false ∧
    (fetchMintStats lt chainId name sae prev cache env now).cache = cache ∧
    (fetchMintStats lt chainId name sae prevAlt cache env now).snapshot
      = (fetchMintStats lt chainId name sae prev cache env now).snapshot := by
  cases lt with
  | L1 =>
      rcases h : runL1 env with ⟨t, r, nc, rc⟩
      simp [fetchMintStats, hc, hn, h] at ht ⊢
      simp [ht]
  | L2 =>
      cases hi : env.indexer with
      | ok d =>
          simp [fetchMintStats, hc, hn, runL2, hi] at ht ⊢
          simp [ht]
      | error e =>
          simp [fetchMintStats, hc, hn, runL2, hi, errorMessage] at he

/-- Witness for `mintStats_C10_amended`: an L2 refresh answering
`{items: [], totalItems: 0}` over a previous snapshot holding 10 names
leaves the cache untouched, clears the loading flag, and computes the
same replacing snapshot under a different previous snapshot. -/
theorem mintStats_C10_amended_witness :
    (fetchMintStats ListingType.L2 1 "hank.eth" ⟨10, ["z.hank.eth"], false, none⟩
      ⟨10, ["z.hank.eth"], false, none⟩ (some ⟨10, ["z.hank.eth"], 1⟩)
      ⟨Except.error (), Except.ok none, Except.error (),
        Except.ok ⟨some [], some 0⟩⟩ 60).snapshot.isLoading = false ∧
    (fetchMintStats ListingType.L2 1 "hank.eth" ⟨10, ["z.hank.eth"], false, none⟩
      ⟨10, ["z.hank.eth"], false, none⟩ (some ⟨10, ["z.hank.eth"], 1⟩)
      ⟨Except.error (), Except.ok none, Except.error (),
        Except.ok ⟨some [], some 0⟩⟩ 60).cache
      = some ⟨10, ["z.hank.eth"], 1⟩ ∧
    (fetchMintStats ListingType.L2 1 "hank.eth" ⟨10, ["z.hank.eth"], false, none⟩
      ⟨7, ["w.hank.eth"], false, none⟩ (some ⟨10, ["z.hank.eth"], 1⟩)
      ⟨Except.error (), Except.ok none, Except.error (),
        Except.ok ⟨some [], some 0⟩⟩ 60).snapshot
      = (fetchMintStats ListingType.L2 1 "hank.eth" ⟨10, ["z.hank.eth"], false, none⟩
      ⟨10, ["z.hank.eth"], false, none⟩ (some ⟨10, ["z.hank.eth"], 1⟩)
      ⟨Except.error (), Except.ok none, Except.error (),
        Except.ok ⟨some [], some 0⟩⟩ 60).snapshot :=
  mintStats_C10_amended ListingType.L2 1 "hank.eth"
    ⟨10, ["z.hank.eth"], false, none⟩ ⟨10, ["z.hank.eth"], false, none⟩
    ⟨7, ["w.hank.eth"], false, none⟩ (some ⟨10, ["z.hank.eth"], 1⟩)
    ⟨Except.error (), Except.ok none, Except.error (),
      Except.ok ⟨some [], some 0⟩⟩ 60 (by decide) (by decide) rfl rfl
